import Mathlib

/-!
Verification of the argument-marshaling and invocation harness of the
`rustpython_jit` crate, together with the `browser` wasm module glue.

The harness (AbiType, AbiValue, FunctionSignature, CompiledFunction,
ArgsBuilder, Args, the invocation trampoline and the two error kinds) is
embedded below; the browser-module methods `Document.query` and
`Document.createElement` are embedded at the end, with the host DOM call
result passed in as an explicit input.
-/

namespace RustPythonJit

/-- Modelled from the spec: the `rustpython_jit` source is not in the
repository snapshot (only its test file is), so `AbiType` is taken from
the spec: the closed set of value kinds passable across the native
boundary — 64-bit signed integer and 64-bit float. Purely descriptive. -/
inductive AbiType : Type
  | Int : AbiType
  | Float : AbiType
deriving DecidableEq, Repr

/-- Modelled from the spec: `AbiValue`, a tagged union pairing one
`AbiType` with a concrete value of that kind.  The marshaling layer never
inspects the payload, only the tag, so the float payload is carried as its
raw 64-bit pattern (an integer); equality is structural. -/
inductive AbiValue : Type
  | Int (v : Int) : AbiValue
  | Float (bits : Int) : AbiValue
deriving DecidableEq, Repr

/-- Modelled from the spec: `AbiValue` exposes its `AbiType` without
consuming the value. -/
def AbiValue.kind : AbiValue → AbiType
  | AbiValue.Int _ => AbiType.Int
  | AbiValue.Float _ => AbiType.Float

/-- The error kinds of the harness, from the test file
`src/jit/tests/misc_tests.rs` (`WrongNumberOfArguments`,
`ArgumentTypeMismatch`) plus, modelled from the spec, the
`IndexOutOfRange` rejection of `ArgsBuilder::set`. -/
inductive JitArgumentError : Type
  | WrongNumberOfArguments : JitArgumentError
  | ArgumentTypeMismatch : JitArgumentError
  | IndexOutOfRange : JitArgumentError
deriving DecidableEq, Repr

/-- Modelled from the spec: ordered parameter types and an optional
return type, immutable once attached to a compiled function. -/
structure FunctionSignature : Type where
  params : List AbiType
  ret : Option AbiType

/-- Modelled from the spec: a handle to executable native code plus its
signature.  The native code (produced by the excluded codegen backend) is
modelled as a total function from the validated argument tuple to the raw
contents of the return register; validation never invokes it. -/
structure CompiledFunction : Type where
  sig : FunctionSignature
  code : List AbiValue → Int

/-- Modelled from the spec: the trampoline's return-value conversion —
the raw return-register contents tagged with the declared return type. -/
def tagReturn : AbiType → Int → AbiValue
  | AbiType.Int, v => AbiValue.Int v
  | AbiType.Float, v => AbiValue.Float v

/-- Modelled from the spec: the invocation trampoline.  Performs the
native call and, if the signature declares a return type, tags the raw
return register with it; if no return type is declared it yields nothing
regardless of what the machine code left in the register. -/
def trampoline (f : CompiledFunction) (args : List AbiValue) : Option AbiValue :=
  Option.map (fun t => tagReturn t (f.code args)) f.sig.ret

/-- Positionwise kind check: true iff the two lists have equal length and
every value's kind equals the declared type at its position. -/
def kindsMatch : List AbiValue → List AbiType → Bool
  | [], [] => true
  | v :: vs, t :: ts => (v.kind == t) && kindsMatch vs ts
  | _, _ => false

/-- Modelled from the spec: the per-position type check of the bulk path,
in position order, failing fast on the first mismatch (run only after the
arity check, so the zip-style base cases are never reached with a length
difference). -/
def checkArgTypes : List AbiValue → List AbiType → Except JitArgumentError Unit
  | v :: vs, t :: ts =>
    if v.kind = t then checkArgTypes vs ts
    else Except.error JitArgumentError.ArgumentTypeMismatch
  | _, _ => Except.ok ()

/-- Modelled from the spec: the bulk entry point
`CompiledFunction::invoke(&[AbiValue])`.  Checks arity first as a single
comparison, then each position's type in order, and only then performs
the native call through the trampoline. -/
def CompiledFunction.invoke (f : CompiledFunction) (args : List AbiValue) :
    Except JitArgumentError (Option AbiValue) :=
  if args.length ≠ f.sig.params.length then
    Except.error JitArgumentError.WrongNumberOfArguments
  else
    match checkArgTypes args f.sig.params with
    | Except.error e => Except.error e
    | Except.ok _ => Except.ok (trampoline f args)

/-- Modelled from the spec: `Args`, a builder's completed validated
output.  The `ok` field carries the invariant that in the Rust source is
maintained by field privacy: exactly `params.length` entries, each
type-matching its slot. -/
structure Args : Type where
  func : CompiledFunction
  values : List AbiValue
  ok : kindsMatch values func.sig.params = true

/-- Modelled from the spec: `Args::invoke()`, funnelling into the same
trampoline as the bulk path. -/
def Args.invoke (a : Args) : Option AbiValue :=
  trampoline a.func a.values

/-- Modelled from the spec: `ArgsBuilder`, a fixed-length array of
optional slots sized to `signature.params.len()` plus the target
function. -/
structure ArgsBuilder : Type where
  func : CompiledFunction
  slots : List (Option AbiValue)

/-- Modelled from the spec: `CompiledFunction::args_builder()` — a fresh
builder with all slots unset. -/
def CompiledFunction.args_builder (f : CompiledFunction) : ArgsBuilder :=
  ⟨f, List.replicate f.sig.params.length none⟩

/-- Modelled from the spec: `ArgsBuilder::set(index, value)` — succeeds
and stores the value only if the index is in range and the value's kind
equals the declared parameter type; any rejection leaves the builder
unchanged.  Rust mutates in place; here the updated builder is returned
alongside the result. -/
def ArgsBuilder.set (b : ArgsBuilder) (i : Nat) (v : AbiValue) :
    Except JitArgumentError Unit × ArgsBuilder :=
  match b.func.sig.params[i]? with
  | none => (Except.error JitArgumentError.IndexOutOfRange, b)
  | some t =>
    if v.kind = t then
      (Except.ok (), ⟨b.func, b.slots.set i (some v)⟩)
    else
      (Except.error JitArgumentError.ArgumentTypeMismatch, b)

/-- Modelled from the spec: `ArgsBuilder::is_set(index)` — pure
observer. -/
def ArgsBuilder.is_set (b : ArgsBuilder) (i : Nat) : Bool :=
  (b.slots.getD i none).isSome

/-- Modelled from the spec: `ArgsBuilder::into_args()` — consumes the
builder and returns the completed `Args` only if every slot is set.  The
inner kind check re-establishes the `Args` invariant that the Rust source
gets from field privacy; for any builder reachable through
`args_builder`/`set` it always succeeds once all slots are set. -/
def ArgsBuilder.into_args (b : ArgsBuilder) : Option Args :=
  if b.slots.all Option.isSome then
    if h : kindsMatch b.slots.reduceOption b.func.sig.params = true then
      some ⟨b.func, b.slots.reduceOption, h⟩
    else none
  else none

/-- The builders obtainable through the public interface: a fresh builder
from `args_builder`, or the post-state of any `set` call. -/
inductive ArgsBuilder.Reachable : ArgsBuilder → Prop
  | new (f : CompiledFunction) : ArgsBuilder.Reachable f.args_builder
  | step (b : ArgsBuilder) (i : Nat) (v : AbiValue) :
      ArgsBuilder.Reachable b → ArgsBuilder.Reachable (b.set i v).2

/-- Slot invariant of a builder: as many slots as parameters, and every
set slot holds a value of the declared kind. -/
def slotsOk : List (Option AbiValue) → List AbiType → Bool
  | [], [] => true
  | none :: ss, _ :: ts => slotsOk ss ts
  | some v :: ss, t :: ts => (v.kind == t) && slotsOk ss ts
  | _, _ => false

/-- Well-formedness of a builder. -/
def ArgsBuilder.WF (b : ArgsBuilder) : Prop :=
  slotsOk b.slots b.func.sig.params = true

/-- Modelled from the spec: the builder path of the bulk equivalence —
set every slot from the list in order (`setAll b i vs` performs
`set i v₀`, `set (i+1) v₁`, …). -/
def setAll : ArgsBuilder → Nat → List AbiValue → ArgsBuilder
  | b, _, [] => b
  | b, i, v :: vs => setAll (b.set i v).2 (i + 1) vs

/-- The compiled function of the test file
(`def func(a: int, b: float): return 1`): parameters `[Int, Float]`,
return type `Int`, body leaving `1` in the return register. -/
def testFunc : CompiledFunction :=
  ⟨⟨[AbiType.Int, AbiType.Float], some AbiType.Int⟩, fun _ => 1⟩

end RustPythonJit

namespace BrowserModule

/-- An opaque JavaScript value as surfaced to Rust by `wasm_bindgen`
(`JsValue`); failing `web_sys` DOM calls report one.  Identified
abstractly. -/
structure JsValue : Type where
  id : Nat
deriving DecidableEq, Repr

/-- An opaque DOM element handle (`web_sys::Element`). -/
structure DomElement : Type where
  id : Nat
deriving DecidableEq, Repr

/-- A Python-level error object, as produced at this interface:
`convert::js_py_typeerror` wraps the JavaScript error into a Python
`TypeError`. -/
inductive PyErr : Type
  | typeError (fromJs : JsValue) : PyErr
deriving DecidableEq, Repr

/-- `convert::js_py_typeerror` from the wasm crate: converts a
JavaScript error value into a Python `TypeError`. -/
def js_py_typeerror (err : JsValue) : PyErr :=
  PyErr.typeError err

/-- Outcome of calling a `#[pymethod]` of the browser module: a returned
value, a raised (catchable, ordinary) Python error, or a Rust panic — an
uncatchable fault that aborts instead of returning. -/
inductive PyOutcome (α : Type) : Type
  | ok (a : α) : PyOutcome α
  | raised (e : PyErr) : PyOutcome α
  | panicked : PyOutcome α
deriving DecidableEq, Repr

/-- `Document::query` from `src/wasm/lib/src/browser_module.rs` lines
269–278.  The host call `self.doc.query_selector(query)` returns
`Result<Option<Element>, JsValue>`, passed in here as `qres`; the method
maps a failure through `map_err(js_py_typeerror)?`, i.e. returns it as an
ordinary Python error, and wraps a success into a Python object. -/
def Document.query (qres : Except JsValue (Option DomElement)) :
    PyOutcome (Option DomElement) :=
  match qres with
  | Except.error err => PyOutcome.raised (js_py_typeerror err)
  | Except.ok elem => PyOutcome.ok elem

/-- `Document::createElement` from `src/wasm/lib/src/browser_module.rs`
lines 280–287.  The host call `self.doc.create_element(tag)` returns
`Result<Element, JsValue>`, passed in here as `cres`; the method calls
`.unwrap()` on it, so a failure aborts with a Rust panic instead of
being returned as a Python error. -/
def Document.createElement (cres : Except JsValue DomElement) :
    PyOutcome DomElement :=
  match cres with
  | Except.error _ => PyOutcome.panicked
  | Except.ok elem => PyOutcome.ok elem

end BrowserModule

namespace RustPythonJit

/-! ### Helper lemmas -/

theorem tagReturn_kind (t : AbiType) (x : Int) : (tagReturn t x).kind = t := by
  cases t <;> rfl

theorem kindsMatch_length : ∀ {vs : List AbiValue} {ts : List AbiType},
    kindsMatch vs ts = true → vs.length = ts.length
  | [], [], _ => rfl
  | [], _ :: _, h => by simp [kindsMatch] at h
  | _ :: _, [], h => by simp [kindsMatch] at h
  | _ :: vs, _ :: ts, h => by
    simp only [kindsMatch, Bool.and_eq_true] at h
    simp [kindsMatch_length h.2]

theorem kindsMatch_getElem? : ∀ {vs : List AbiValue} {ts : List AbiType},
    kindsMatch vs ts = true → ∀ {i : Nat} {v : AbiValue}, vs[i]? = some v →
    ∃ t, ts[i]? = some t ∧ v.kind = t
  | [], _, _, i, _, hv => by simp at hv
  | _ :: _, [], h, _, _, _ => by simp [kindsMatch] at h
  | w :: vs, t :: ts, h, i, v, hv => by
    simp only [kindsMatch, Bool.and_eq_true, beq_iff_eq] at h
    cases i with
    | zero =>
      simp only [List.getElem?_cons_zero, Option.some.injEq] at hv
      exact ⟨t, by simp, hv ▸ h.1⟩
    | succ j =>
      simp only [List.getElem?_cons_succ] at hv ⊢
      exact kindsMatch_getElem? h.2 hv

theorem checkArgTypes_ok_of_kindsMatch : ∀ {vs : List AbiValue} {ts : List AbiType},
    kindsMatch vs ts = true → checkArgTypes vs ts = Except.ok ()
  | [], [], _ => rfl
  | [], _ :: _, h => by simp [kindsMatch] at h
  | _ :: _, [], h => by simp [kindsMatch] at h
  | v :: vs, t :: ts, h => by
    simp only [kindsMatch, Bool.and_eq_true, beq_iff_eq] at h
    simp [checkArgTypes, h.1, checkArgTypes_ok_of_kindsMatch h.2]

theorem checkArgTypes_mismatch : ∀ {vs : List AbiValue} {ts : List AbiType}
    {i : Nat} {v : AbiValue} {t : AbiType}, vs[i]? = some v → ts[i]? = some t →
    v.kind ≠ t → checkArgTypes vs ts = Except.error JitArgumentError.ArgumentTypeMismatch
  | [], _, i, _, _, hv, _, _ => by simp at hv
  | _ :: _, [], i, _, _, _, ht, _ => by simp at ht
  | w :: vs, u :: ts, i, v, t, hv, ht, hne => by
    cases i with
    | zero =>
      simp only [List.getElem?_cons_zero, Option.some.injEq] at hv ht
      subst hv; subst ht
      simp [checkArgTypes, hne]
    | succ j =>
      simp only [List.getElem?_cons_succ] at hv ht
      by_cases hw : w.kind = u
      · simp [checkArgTypes, hw, checkArgTypes_mismatch hv ht hne]
      · simp [checkArgTypes, hw]

theorem invoke_arity {f : CompiledFunction} {L : List AbiValue}
    (h : L.length ≠ f.sig.params.length) :
    f.invoke L = Except.error JitArgumentError.WrongNumberOfArguments := by
  unfold CompiledFunction.invoke
  simp [h]

theorem invoke_ok {f : CompiledFunction} {L : List AbiValue}
    (hty : kindsMatch L f.sig.params = true) :
    f.invoke L = Except.ok (trampoline f L) := by
  unfold CompiledFunction.invoke
  rw [checkArgTypes_ok_of_kindsMatch hty]
  simp [kindsMatch_length hty]

theorem invoke_type_error {f : CompiledFunction} {L : List AbiValue}
    {i : Nat} {v : AbiValue} {t : AbiType} (hlen : L.length = f.sig.params.length)
    (hv : L[i]? = some v) (ht : f.sig.params[i]? = some t) (hne : v.kind ≠ t) :
    f.invoke L = Except.error JitArgumentError.ArgumentTypeMismatch := by
  unfold CompiledFunction.invoke
  rw [checkArgTypes_mismatch hv ht hne]
  simp [hlen]

theorem slotsOk_replicate : ∀ ts : List AbiType,
    slotsOk (List.replicate ts.length none) ts = true
  | [] => rfl
  | t :: ts => by
    simpa [List.replicate_succ, slotsOk] using slotsOk_replicate ts

theorem slotsOk_set : ∀ {ss : List (Option AbiValue)} {ts : List AbiType}
    (i : Nat) {t : AbiType} {v : AbiValue}, slotsOk ss ts = true →
    ts[i]? = some t → v.kind = t → slotsOk (ss.set i (some v)) ts = true
  | [], ts, i, t, v, h, _, _ => by simpa using h
  | s :: ss, [], i, t, v, h, ht, _ => by simp at ht
  | s :: ss, u :: ts, 0, t, v, h, ht, hk => by
    simp only [List.getElem?_cons_zero, Option.some.injEq] at ht
    subst ht
    have hrest : slotsOk ss ts = true := by
      cases s with
      | none => simpa [slotsOk] using h
      | some w => simpa [slotsOk, Bool.and_eq_true] using And.right (by simpa [slotsOk, Bool.and_eq_true] using h)
    simp [List.set, slotsOk, hk, hrest]
  | s :: ss, u :: ts, i + 1, t, v, h, ht, hk => by
    simp only [List.getElem?_cons_succ] at ht
    cases s with
    | none =>
      simp only [slotsOk] at h
      simp [List.set, slotsOk, slotsOk_set i h ht hk]
    | some w =>
      simp only [slotsOk, Bool.and_eq_true] at h
      simp [List.set, slotsOk, h.1, slotsOk_set i h.2 ht hk]

theorem slotsOk_length : ∀ {ss : List (Option AbiValue)} {ts : List AbiType},
    slotsOk ss ts = true → ss.length = ts.length
  | [], [], _ => rfl
  | [], _ :: _, h => by simp [slotsOk] at h
  | none :: ss, [], h => by simp [slotsOk] at h
  | some _ :: ss, [], h => by simp [slotsOk] at h
  | none :: ss, _ :: ts, h => by
    simp only [slotsOk] at h
    simp [slotsOk_length h]
  | some _ :: ss, _ :: ts, h => by
    simp only [slotsOk, Bool.and_eq_true] at h
    simp [slotsOk_length h.2]

theorem kindsMatch_reduceOption : ∀ {ss : List (Option AbiValue)} {ts : List AbiType},
    slotsOk ss ts = true → ss.all Option.isSome = true →
    kindsMatch ss.reduceOption ts = true
  | [], [], _, _ => rfl
  | [], _ :: _, h, _ => by simp [slotsOk] at h
  | none :: ss, _, _, ha => by simp at ha
  | some _ :: ss, [], h, _ => by simp [slotsOk] at h
  | some v :: ss, t :: ts, h, ha => by
    simp only [slotsOk, Bool.and_eq_true] at h
    simp only [List.all_cons, Bool.and_eq_true] at ha
    rw [List.reduceOption_cons_of_some]
    simp only [kindsMatch, Bool.and_eq_true]
    exact ⟨h.1, kindsMatch_reduceOption h.2 ha.2⟩

theorem ArgsBuilder.set_eq_of_error {b : ArgsBuilder} {i : Nat} {v : AbiValue}
    {e : JitArgumentError} (h : (b.set i v).1 = Except.error e) :
    (b.set i v).2 = b := by
  unfold ArgsBuilder.set at h ⊢
  cases hp : b.func.sig.params[i]? with
  | none => simp [hp]
  | some t =>
    by_cases hk : v.kind = t
    · rw [hp] at h
      simp [hk] at h
    · simp [hp, hk]

theorem ArgsBuilder.set_ok {b : ArgsBuilder} {i : Nat} {v : AbiValue} {t : AbiType}
    (ht : b.func.sig.params[i]? = some t) (hk : v.kind = t) :
    b.set i v = (Except.ok (), ⟨b.func, b.slots.set i (some v)⟩) := by
  unfold ArgsBuilder.set
  rw [ht]
  simp [hk]

theorem Reachable.wf : ∀ {b : ArgsBuilder}, b.Reachable → b.WF := by
  intro b h
  induction h with
  | new f => exact slotsOk_replicate f.sig.params
  | step b i v hb ih =>
    cases hp : b.func.sig.params[i]? with
    | none =>
      unfold ArgsBuilder.set
      rw [hp]
      exact ih
    | some t =>
      by_cases hk : v.kind = t
      · rw [ArgsBuilder.set_ok hp hk]
        exact slotsOk_set i ih hp hk
      · unfold ArgsBuilder.set
        rw [hp]
        simpa [hk] using ih

theorem ArgsBuilder.into_args_none_of_unset {b : ArgsBuilder} {i : Nat}
    (hi : i < b.slots.length) (h : b.is_set i = false) : b.into_args = none := by
  have hnone : b.slots[i] = none := by
    unfold ArgsBuilder.is_set at h
    rw [List.getD_eq_getElem?_getD, List.getElem?_eq_getElem hi] at h
    simpa using h
  unfold ArgsBuilder.into_args
  cases hall : b.slots.all Option.isSome with
  | false => simp [hall]
  | true =>
    exfalso
    rw [List.all_eq_true] at hall
    have := hall _ (List.getElem_mem hi)
    rw [hnone] at this
    simp at this

theorem ArgsBuilder.into_args_of_all_set {b : ArgsBuilder} (hwf : b.WF)
    (hall : b.slots.all Option.isSome = true) :
    b.into_args = some ⟨b.func, b.slots.reduceOption, kindsMatch_reduceOption hwf hall⟩ := by
  unfold ArgsBuilder.into_args
  rw [hall]
  simp [kindsMatch_reduceOption hwf hall]

theorem all_isSome_of_is_set {b : ArgsBuilder}
    (h : ∀ i, i < b.slots.length → b.is_set i = true) :
    b.slots.all Option.isSome = true := by
  rw [List.all_eq_true]
  intro x hx
  obtain ⟨i, hi, hx⟩ := List.getElem_of_mem hx
  have hs := h i hi
  unfold ArgsBuilder.is_set at hs
  rw [List.getD_eq_getElem?_getD, List.getElem?_eq_getElem hi] at hs
  simp only [Option.getD_some] at hs
  rw [← hx]
  exact hs

theorem Args.length_eq (a : Args) : a.values.length = a.func.sig.params.length :=
  kindsMatch_length a.ok

theorem Args.kind_eq (a : Args) {i : Nat} {v : AbiValue} {t : AbiType}
    (hv : a.values[i]? = some v) (ht : a.func.sig.params[i]? = some t) :
    v.kind = t := by
  obtain ⟨u, hu, hk⟩ := kindsMatch_getElem? a.ok hv
  rw [hu] at ht
  cases ht
  exact hk

theorem reduceOption_map_some : ∀ l : List AbiValue, (l.map some).reduceOption = l
  | [] => rfl
  | v :: l => by
    rw [List.map_cons, List.reduceOption_cons_of_some, reduceOption_map_some l]

theorem all_isSome_map_some (l : List AbiValue) :
    (l.map some).all Option.isSome = true := by
  simp [List.all_eq_true]

theorem setAll_spec : ∀ (vs pre : List AbiValue) (b : ArgsBuilder),
    b.slots = pre.map some ++ List.replicate vs.length none →
    kindsMatch (pre ++ vs) b.func.sig.params = true →
    (setAll b pre.length vs).func = b.func ∧
    (setAll b pre.length vs).slots = (pre ++ vs).map some := by
  intro vs
  induction vs with
  | nil =>
    intro pre b hs hk
    unfold setAll
    refine ⟨rfl, ?_⟩
    simpa using hs
  | cons v vs ih =>
    intro pre b hs hk
    have hv : (pre ++ v :: vs)[pre.length]? = some v := by
      rw [List.getElem?_append_right (Nat.le_refl _)]
      simp
    obtain ⟨t, hts, hkind⟩ := kindsMatch_getElem? hk hv
    have hset := ArgsBuilder.set_ok (b := b) (i := pre.length) hts hkind
    have hslots : b.slots.set pre.length (some v) =
        (pre ++ [v]).map some ++ List.replicate vs.length none := by
      rw [hs]
      simp only [List.length_cons, List.replicate_succ]
      rw [List.set_append_right _ _ (by simp), List.length_map]
      simp
    have hstep := ih (pre ++ [v]) (b.set pre.length v).2
      (by rw [hset]; exact hslots)
      (by rw [hset]; simpa using hk)
    rw [List.length_append, List.length_cons] at hstep
    simp only [List.length_cons, List.length_nil] at hstep
    unfold setAll
    rw [hset] at hstep ⊢
    refine ⟨hstep.1, ?_⟩
    rw [hstep.2]
    simp

/-! ### Claims -/

/-- **C1.** For every signature and every argument list whose length
differs from the declared parameter count — shorter or longer — the bulk
entry point `CompiledFunction.invoke` returns `WrongNumberOfArguments`. -/
theorem C1_invoke_wrong_arity (f : CompiledFunction) (L : List AbiValue)
    (h : L.length ≠ f.sig.params.length) :
    f.invoke L = Except.error JitArgumentError.WrongNumberOfArguments :=
  invoke_arity h

/-- Witness for C1 at the test function, once with a shorter and once
with a longer argument list. -/
theorem C1_witness :
    testFunc.invoke [AbiValue.Int 1] =
      Except.error JitArgumentError.WrongNumberOfArguments ∧
    testFunc.invoke [AbiValue.Int 1, AbiValue.Float 2, AbiValue.Int 0] =
      Except.error JitArgumentError.WrongNumberOfArguments :=
  ⟨C1_invoke_wrong_arity testFunc _ (by decide),
   C1_invoke_wrong_arity testFunc _ (by decide)⟩

/-- **C2.** For every arity-correct argument list with a kind mismatch at
some position, `CompiledFunction.invoke` returns `ArgumentTypeMismatch`,
and no native call occurs: the result is the same whatever machine code
the function carries. -/
theorem C2_invoke_type_mismatch (f : CompiledFunction) (L : List AbiValue)
    (i : Nat) (v : AbiValue) (t : AbiType)
    (hlen : L.length = f.sig.params.length)
    (hv : L[i]? = some v) (ht : f.sig.params[i]? = some t) (hne : v.kind ≠ t) :
    f.invoke L = Except.error JitArgumentError.ArgumentTypeMismatch ∧
    ∀ g : List AbiValue → Int,
      (CompiledFunction.mk f.sig g).invoke L =
        Except.error JitArgumentError.ArgumentTypeMismatch :=
  ⟨invoke_type_error hlen hv ht hne,
   fun g => invoke_type_error (f := ⟨f.sig, g⟩) hlen hv ht hne⟩

/-- Witness for C2 at the test function: a float parameter supplied with
an integer value. -/
theorem C2_witness :
    testFunc.invoke [AbiValue.Int 1, AbiValue.Int 1] =
      Except.error JitArgumentError.ArgumentTypeMismatch :=
  (C2_invoke_type_mismatch testFunc _ 1 (AbiValue.Int 1) AbiType.Float
    (by decide) (by decide) (by decide) (by decide)).1

/-- **C3.** For every argument list matching the signature in arity and in
every position's kind, `CompiledFunction.invoke` returns `Ok (some v)`
with `v.kind` equal to the declared return type when one is declared, and
`Ok none` when none is declared. -/
theorem C3_invoke_ok (f : CompiledFunction) (L : List AbiValue)
    (hty : kindsMatch L f.sig.params = true) :
    (∀ t, f.sig.ret = some t →
      f.invoke L = Except.ok (some (tagReturn t (f.code L))) ∧
      (tagReturn t (f.code L)).kind = t) ∧
    (f.sig.ret = none → f.invoke L = Except.ok none) := by
  constructor
  · intro t hret
    refine ⟨?_, tagReturn_kind t _⟩
    rw [invoke_ok hty]
    unfold trampoline
    rw [hret]
    rfl
  · intro hret
    rw [invoke_ok hty]
    unfold trampoline
    rw [hret]
    rfl

/-- Witness for C3 at the test function on a fully valid call. -/
theorem C3_witness :
    testFunc.invoke [AbiValue.Int 1, AbiValue.Float 2] =
      Except.ok (some (AbiValue.Int 1)) ∧
    (AbiValue.Int 1).kind = AbiType.Int :=
  (C3_invoke_ok testFunc [AbiValue.Int 1, AbiValue.Float 2] (by decide)).1
    AbiType.Int rfl

/-- **C4.** In the bulk path the arity check precedes every type
comparison (`WrongNumberOfArguments` even when positions also mismatch),
and types are checked in position order with the earliest mismatching
position determining the error: the result is unchanged however the list
is altered beyond that position. -/
theorem C4_check_order (f : CompiledFunction) (L : List AbiValue) (i : Nat)
    (hlen : L.length = f.sig.params.length) (hi : i < L.length)
    (hmis : L[i]?.map AbiValue.kind ≠ f.sig.params[i]?)
    (_hfirst : ∀ j, j < i → L[j]?.map AbiValue.kind = f.sig.params[j]?) :
    (∀ M : List AbiValue, M.length ≠ f.sig.params.length →
      f.invoke M = Except.error JitArgumentError.WrongNumberOfArguments) ∧
    f.invoke L = Except.error JitArgumentError.ArgumentTypeMismatch ∧
    (∀ L' : List AbiValue, L'.length = L.length →
      (∀ j, j ≤ i → L'[j]? = L[j]?) →
      f.invoke L' = Except.error JitArgumentError.ArgumentTypeMismatch) := by
  have hv : L[i]? = some L[i] := List.getElem?_eq_getElem hi
  have hip : i < f.sig.params.length := hlen ▸ hi
  have ht : f.sig.params[i]? = some f.sig.params[i] :=
    List.getElem?_eq_getElem hip
  have hne : (L[i]).kind ≠ f.sig.params[i] := by
    rw [hv, ht] at hmis
    simpa using hmis
  refine ⟨fun M hM => invoke_arity hM, invoke_type_error hlen hv ht hne, ?_⟩
  intro L' hL' hagree
  have hv' : L'[i]? = some L[i] := by
    rw [hagree i (Nat.le_refl i)]
    exact hv
  exact invoke_type_error (hL'.trans hlen) hv' ht hne

/-- Witness for C4 at the test function: the mismatch at position 0 is
the earliest one. -/
theorem C4_witness :
    testFunc.invoke [AbiValue.Float 1, AbiValue.Int 1] =
      Except.error JitArgumentError.ArgumentTypeMismatch :=
  (C4_check_order testFunc _ 0 (by decide) (by decide) (by decide)
    (fun j hj => absurd hj (Nat.not_lt_zero j))).2.1

/-- **C5.** Whenever `ArgsBuilder.set` is rejected — type mismatch or
out-of-range index — the builder's observable state is unchanged: every
slot's `is_set` flag and stored value are as before the call. -/
theorem C5_set_error_preserves (b : ArgsBuilder) (i : Nat) (v : AbiValue)
    (e : JitArgumentError) (h : (b.set i v).1 = Except.error e) :
    (b.set i v).2 = b ∧
    (∀ j : Nat, (b.set i v).2.is_set j = b.is_set j) ∧
    (∀ j : Nat, (b.set i v).2.slots[j]? = b.slots[j]?) := by
  have hb := ArgsBuilder.set_eq_of_error h
  exact ⟨hb, fun j => by rw [hb], fun j => by rw [hb]⟩

/-- Witness for C5: after one accepted write to slot 0, a mismatched
write to slot 1 is rejected and leaves the builder as it was. -/
theorem C5_witness :
    ((testFunc.args_builder.set 0 (AbiValue.Int 1)).2.set 1 (AbiValue.Int 1)).2 =
      (testFunc.args_builder.set 0 (AbiValue.Int 1)).2 :=
  (C5_set_error_preserves (testFunc.args_builder.set 0 (AbiValue.Int 1)).2 1
    (AbiValue.Int 1) JitArgumentError.ArgumentTypeMismatch (by rfl)).1

/-- **C6.** For every builder obtainable through the public interface,
`into_args` returns `none` whenever some slot is unset and `some`
whenever every slot is set; and no `Args` value can exist whose length
differs from the signature's arity or whose value at any position has a
kind differing from the declared parameter type. -/
theorem C6_into_args_complete (b : ArgsBuilder) (hb : b.Reachable) :
    ((∃ i, i < b.slots.length ∧ b.is_set i = false) → b.into_args = none) ∧
    ((∀ i, i < b.slots.length → b.is_set i = true) →
      ∃ a : Args, b.into_args = some a) ∧
    (∀ a : Args, a.values.length = a.func.sig.params.length ∧
      ∀ (i : Nat) (v : AbiValue) (t : AbiType), a.values[i]? = some v →
        a.func.sig.params[i]? = some t → v.kind = t) := by
  refine ⟨?_, ?_, fun a => ⟨a.length_eq, fun i v t hv ht => a.kind_eq hv ht⟩⟩
  · rintro ⟨i, hi, hset⟩
    exact ArgsBuilder.into_args_none_of_unset hi hset
  · intro hall
    exact ⟨_, ArgsBuilder.into_args_of_all_set (Reachable.wf hb)
      (all_isSome_of_is_set hall)⟩

/-- Witness for C6: a freshly created builder for the test function has
its slot 0 unset, so `into_args` yields `none`. -/
theorem C6_witness : testFunc.args_builder.into_args = none :=
  (C6_into_args_complete testFunc.args_builder
    (ArgsBuilder.Reachable.new testFunc)).1 ⟨0, by decide, by decide⟩

/-- **C7.** For every arity- and type-correct argument list, building via
`ArgsBuilder` (setting each slot in order, finalizing with `into_args`,
then `Args.invoke`) produces the same result as the bulk
`CompiledFunction.invoke`: both paths yield the trampoline's result. -/
theorem C7_builder_bulk_equiv (f : CompiledFunction) (L : List AbiValue)
    (hty : kindsMatch L f.sig.params = true) :
    Option.map Args.invoke (setAll f.args_builder 0 L).into_args =
      some (trampoline f L) ∧
    f.invoke L = Except.ok (trampoline f L) := by
  have hspec := setAll_spec L [] f.args_builder
    (by simp [CompiledFunction.args_builder, kindsMatch_length hty])
    (by simpa using hty)
  have hfunc : (setAll f.args_builder 0 L).func = f := hspec.1
  have hslots : (setAll f.args_builder 0 L).slots = L.map some := by
    simpa using hspec.2
  have hall : (setAll f.args_builder 0 L).slots.all Option.isSome = true := by
    rw [hslots]
    exact all_isSome_map_some L
  have hred : (setAll f.args_builder 0 L).slots.reduceOption = L := by
    rw [hslots]
    exact reduceOption_map_some L
  have hkm : kindsMatch (setAll f.args_builder 0 L).slots.reduceOption
      (setAll f.args_builder 0 L).func.sig.params = true := by
    rw [hred, hfunc]
    exact hty
  have hinto : (setAll f.args_builder 0 L).into_args =
      some ⟨(setAll f.args_builder 0 L).func,
        (setAll f.args_builder 0 L).slots.reduceOption, hkm⟩ := by
    unfold ArgsBuilder.into_args
    rw [hall]
    simp [hkm]
  have hainv : Args.invoke ⟨(setAll f.args_builder 0 L).func,
      (setAll f.args_builder 0 L).slots.reduceOption, hkm⟩ = trampoline f L := by
    show trampoline (setAll f.args_builder 0 L).func
      (setAll f.args_builder 0 L).slots.reduceOption = trampoline f L
    rw [hfunc, hred]
  constructor
  · rw [hinto]
    simp [hainv]
  · exact invoke_ok hty

/-- Witness for C7 at the test function on a fully valid call. -/
theorem C7_witness :
    Option.map Args.invoke
      (setAll testFunc.args_builder 0 [AbiValue.Int 1, AbiValue.Float 1]).into_args =
      some (trampoline testFunc [AbiValue.Int 1, AbiValue.Float 1]) ∧
    testFunc.invoke [AbiValue.Int 1, AbiValue.Float 1] =
      Except.ok (trampoline testFunc [AbiValue.Int 1, AbiValue.Float 1]) :=
  C7_builder_bulk_equiv testFunc [AbiValue.Int 1, AbiValue.Float 1] (by decide)

/-- **C8.** For every `Args` over a signature with no declared return
type — the zero-parameter case included — `Args.invoke` yields `none`,
regardless of what the machine code leaves in the return register (any
alternative code function gives the same result). -/
theorem C8_no_declared_return (a : Args) (h : a.func.sig.ret = none) :
    a.invoke = none ∧
    ∀ g : List AbiValue → Int,
      Args.invoke ⟨⟨a.func.sig, g⟩, a.values, a.ok⟩ = none := by
  constructor
  · unfold Args.invoke trampoline
    rw [h]
    rfl
  · intro g
    unfold Args.invoke trampoline
    rw [h]
    rfl

/-- Witness for C8: a zero-parameter, no-return compiled function whose
machine code leaves the garbage value 7 in the return register still
yields nothing. -/
theorem C8_witness :
    Args.invoke ⟨⟨⟨[], none⟩, fun _ => 7⟩, [], rfl⟩ = none :=
  (C8_no_declared_return ⟨⟨⟨[], none⟩, fun _ => 7⟩, [], rfl⟩ rfl).1

/-- **C9.** Re-setting an already-set slot with a type-correct value
succeeds and overwrites it: the resulting builder equals the one where
that write was the only accepted write to the slot (last write wins). -/
theorem C9_set_overwrites (b : ArgsBuilder) (i : Nat) (v1 v2 : AbiValue)
    (t : AbiType) (ht : b.func.sig.params[i]? = some t)
    (h1 : v1.kind = t) (h2 : v2.kind = t) :
    ((b.set i v1).2.set i v2).1 = Except.ok () ∧
    ((b.set i v1).2.set i v2).2 = (b.set i v2).2 := by
  have hB1 : (b.set i v1).2 = ⟨b.func, b.slots.set i (some v1)⟩ := by
    rw [ArgsBuilder.set_ok ht h1]
  have hset2 := ArgsBuilder.set_ok
    (b := ⟨b.func, b.slots.set i (some v1)⟩) (v := v2) ht h2
  constructor
  · rw [hB1, hset2]
  · rw [hB1, hset2, ArgsBuilder.set_ok ht h2, List.set_set]

/-- Witness for C9: slot 0 of the test function's builder is set to 1 and
then overwritten by 5; the result is the builder where only 5 was
written. -/
theorem C9_witness :
    ((testFunc.args_builder.set 0 (AbiValue.Int 1)).2.set 0 (AbiValue.Int 5)).1 =
      Except.ok () ∧
    ((testFunc.args_builder.set 0 (AbiValue.Int 1)).2.set 0 (AbiValue.Int 5)).2 =
      (testFunc.args_builder.set 0 (AbiValue.Int 5)).2 :=
  C9_set_overwrites testFunc.args_builder 0 (AbiValue.Int 1) (AbiValue.Int 5)
    AbiType.Int (by decide) (by decide) (by decide)

end RustPythonJit

namespace BrowserModule

/-- **C10.** At the public interface of the browser module, a failing DOM
query is converted by `Document.query` into an ordinary (returned,
catchable) Python error, while `Document.createElement` unwraps the
underlying result and panics — an uncatchable fault — whenever element
creation fails. -/
theorem C10_query_raises_createElement_panics (err : JsValue) :
    Document.query (Except.error err) =
      PyOutcome.raised (js_py_typeerror err) ∧
    Document.createElement (Except.error err) = PyOutcome.panicked :=
  ⟨rfl, rfl⟩

end BrowserModule
